import Mathlib

/-!
Shallow embedding of the to-do validation domain layer of this repository.

The validation core lives in `src/http-sourced-lambda/src/domain/entities.rs`:
value objects `ToDoId`, `Title`, `OwnerId` with validated constructors, the
`IsComplete` enumeration, and the builder-style `ValidateToDo` whose
`validate` turns an `UnvalidatedToDo` into a `ValidatedToDo` or an aggregated
`ValidationError`.

Rust strings are modelled as `List Char`; the Rust `str::len` counts UTF-8
bytes, modelled by `rustLen` below using `Char.utf8Size`.  Fallible
constructors return `Except ValidationError _` for the Rust
`Result<_, ValidationError>`.  The two `unwrap` calls inside `validate` are
modelled by returning `Option (Except _ _)`, where `none` stands for a panic.
-/

namespace ToDoDomain

/-- Rust `str::len`: the UTF-8 byte length of a string modelled as a list of
characters. -/
def rustLen (s : List Char) : Nat := (s.map Char.utf8Size).sum

/-- Error type of the validation layer.  Its definition lives in
`domain/error_types.rs`, which is not under `src/`; modelled from the spec:
a `ValidationError` "carries an aggregated human-readable message" (spec 7),
and the unit tests in `entities.rs` pin its rendered form. -/
structure ValidationError where
  message : List Char
deriving DecidableEq, Repr

/-- Constructor `ValidationError::new(message)`. -/
def ValidationError.new (m : List Char) : ValidationError := ⟨m⟩

/-- Rendering of a `ValidationError` by its `Display` implementation
(`ele.to_string()` in `validate`).  Modelled from the spec: `error_types.rs`
is not under `src/`; the unit tests in `entities.rs` pin the rendered form as
the text "Validation error: " followed by the message (see the expected
strings in `empty_title_should_return_validate_error` and
`empty_owner_should_return_validate_error`). -/
def ValidationError.display (e : ValidationError) : List Char :=
  "Validation error: ".data ++ e.message

/-- Value object `ToDoId` (entities.rs lines 11-13). -/
structure ToDoId where
  value : List Char
deriving DecidableEq, Repr

/-- `ToDoId::new` (entities.rs lines 16-24): accepts any string with
`value.len() > 0`. -/
def ToDoId.new (value : List Char) : Except ValidationError ToDoId :=
  if rustLen value > 0 then
    Except.ok ⟨value⟩
  else
    Except.error (ValidationError.new "To Id must be greater than 0".data)

/-- `ToDoId::get_value` (entities.rs lines 26-28). -/
def ToDoId.get_value (t : ToDoId) : List Char := t.value

/-- Value object `Title` (entities.rs lines 31-33). -/
structure Title where
  value : List Char
deriving DecidableEq, Repr

/-- `Title::new` (entities.rs lines 36-44): accepts a string with
`value.len() > 0 && value.len() <= 50`. -/
def Title.new (value : List Char) : Except ValidationError Title :=
  if rustLen value > 0 ∧ rustLen value ≤ 50 then
    Except.ok ⟨value⟩
  else
    Except.error (ValidationError.new "Must be between 0 and 50 chars".data)

/-- `Title::get_value` (entities.rs lines 46-48). -/
def Title.get_value (t : Title) : List Char := t.value

/-- Value object `OwnerId` (entities.rs lines 51-53). -/
structure OwnerId where
  value : List Char
deriving DecidableEq, Repr

/-- `OwnerId::new` (entities.rs lines 56-62): accepts any string with
`value.len() > 0`. -/
def OwnerId.new (value : List Char) : Except ValidationError OwnerId :=
  if rustLen value > 0 then
    Except.ok ⟨value⟩
  else
    Except.error (ValidationError.new "Must be greater than 0".data)

/-- `OwnerId::get_value` (entities.rs lines 64-66). -/
def OwnerId.get_value (o : OwnerId) : List Char := o.value

/-- Enumeration `IsComplete` (entities.rs lines 70-73). -/
inductive IsComplete where
  | INCOMPLETE
  | COMPLETE
deriving DecidableEq, Repr

/-- Raw command payload `UnvalidatedToDo`.  It is declared in
`domain/public_types.rs`, which is not under `src/`; modelled from the spec:
"UnvalidatedInput - raw command payload: title (string), ownerId (string),
isComplete (boolean)" (spec 3), with the field names pinned by the unit tests
in `entities.rs`. -/
structure UnvalidatedToDo where
  title : List Char
  owner_id : List Char
  is_complete : Bool
deriving DecidableEq, Repr

/-- Validated entity `ValidatedToDo`.  It is declared in
`domain/public_types.rs`, which is not under `src/`; modelled from the spec:
"ValidatedEntity - title, ownerId, completionState" (spec 3), with the field
names and order pinned by the `Ok` construction in `validate`
(entities.rs lines 116-120). -/
structure ValidatedToDo where
  title : Title
  is_complete : IsComplete
  owner_id : OwnerId
deriving DecidableEq, Repr

/-- Builder state `ValidateToDo` (entities.rs lines 81-87). -/
structure ValidateToDo where
  title : Option Title
  owner_id : Option OwnerId
  is_complete : IsComplete
  errors : List ValidationError
  to_validate : UnvalidatedToDo
deriving DecidableEq, Repr

/-- `ValidateToDo::new` (entities.rs lines 90-98): both options start as
`None`, the completion field starts as `INCOMPLETE`, the error list starts
empty. -/
def ValidateToDo.new (u : UnvalidatedToDo) : ValidateToDo :=
  { title := none
    owner_id := none
    is_complete := IsComplete.INCOMPLETE
    errors := []
    to_validate := u }

/-- `ValidateToDo::check_title` (entities.rs lines 123-132): on success store
the title, on failure push the error. -/
def ValidateToDo.check_title (s : ValidateToDo) : ValidateToDo :=
  match Title.new s.to_validate.title with
  | Except.ok v => { s with title := some v }
  | Except.error e => { s with errors := s.errors ++ [e] }

/-- `ValidateToDo::check_owner_id` (entities.rs lines 134-143): on success
store the owner id, on failure push the error. -/
def ValidateToDo.check_owner_id (s : ValidateToDo) : ValidateToDo :=
  match OwnerId.new s.to_validate.owner_id with
  | Except.ok v => { s with owner_id := some v }
  | Except.error e => { s with errors := s.errors ++ [e] }

/-- The error-aggregation loop of `validate` (entities.rs lines 105-111):
the accumulator starts empty and each iteration replaces it with the
accumulator, then the delimiter " - ", then the rendered error. -/
def aggregate (errs : List ValidationError) : List Char :=
  errs.foldl (fun acc e => acc ++ " - ".data ++ e.display) []

/-- `ValidateToDo::validate` (entities.rs lines 100-121).  Runs `check_title`
then `check_owner_id`; if any error was collected, returns the aggregated
`ValidationError`; otherwise unwraps the two options and builds the
`ValidatedToDo`.  The value `none` models a panic of the `unwrap` calls. -/
def ValidateToDo.validate (s0 : ValidateToDo) :
    Option (Except ValidationError ValidatedToDo) :=
  let s := s0.check_title.check_owner_id
  if s.errors.length > 0 then
    some (Except.error (ValidationError.new (aggregate s.errors)))
  else
    match s.title, s.owner_id with
    | some t, some o =>
        some (Except.ok { title := t, is_complete := s.is_complete, owner_id := o })
    | _, _ => none

/-- A persisted to-do item.  Modelled from the spec: the storage-facing item
type of `axum-lambda-web` lives in its `application` module, which is not
under `src/`; the spec (spec 3) gives "PersistedItem - validated entity plus
an assigned identifier", and the `ToDoItem` uses in `main.rs` pin the fields
id, title, is_complete. -/
structure PersistedItem where
  id : List Char
  title : List Char
  is_complete : Bool
deriving DecidableEq, Repr

/-- An update command.  Modelled from the spec: `UpdateToDoCommand` lives in
the `application` module of `axum-lambda-web`, which is not under `src/`; the
test driver in `main.rs` pins the fields title and set_as_complete. -/
structure UpdateCommand where
  title : List Char
  set_as_complete : Bool
deriving DecidableEq, Repr

/-- The conditional update rule applied by the update command handler against
the currently persisted item.  Modelled from the spec:
`application/commands.rs` of `axum-lambda-web` is not under `src/`; spec 4.2
says: if the current persisted state is Complete and the update does not
explicitly revert to Incomplete, the title in the update request is ignored
and only the completion flag may change; if the current state is Incomplete,
both title and completion flag are applied as given. -/
def applyUpdate (current : PersistedItem) (cmd : UpdateCommand) : PersistedItem :=
  if current.is_complete ∧ cmd.set_as_complete then
    { current with is_complete := cmd.set_as_complete }
  else
    { current with title := cmd.title, is_complete := cmd.set_as_complete }

/-! Helper lemmas characterising the constructors and the validate pipeline. -/

/-- A non-empty string has positive UTF-8 byte length. -/
theorem rustLen_pos_of_ne_nil (v : List Char) (h : v ≠ []) : 0 < rustLen v := by
  cases v with
  | nil => exact absurd rfl h
  | cons c cs =>
      simp only [rustLen, List.map_cons, List.sum_cons]
      exact Nat.lt_of_lt_of_le c.utf8Size_pos (Nat.le_add_right _ _)

/-- Success characterisation of `Title.new`. -/
theorem title_new_ok (v : List Char) (t : Title) :
    Title.new v = Except.ok t ↔ (t = ⟨v⟩ ∧ 0 < rustLen v ∧ rustLen v ≤ 50) := by
  unfold Title.new
  split
  next hc => simp [eq_comm, hc]
  next hc => simp [hc]

/-- Failure characterisation of `Title.new`. -/
theorem title_new_error (v : List Char) (e : ValidationError) :
    Title.new v = Except.error e ↔
      (e = ValidationError.new "Must be between 0 and 50 chars".data ∧
        ¬(0 < rustLen v ∧ rustLen v ≤ 50)) := by
  unfold Title.new
  split
  next hc => simp [hc]
  next hc => simp [eq_comm, hc]

/-- Success of `Title.new` as a boolean, in terms of byte length. -/
theorem title_new_isOk (v : List Char) :
    (Title.new v).isOk = true ↔ (0 < rustLen v ∧ rustLen v ≤ 50) := by
  unfold Title.new
  split
  next hc => simp [Except.isOk, Except.toBool, hc]
  next hc => simp [Except.isOk, Except.toBool, hc]

/-- Success characterisation of `OwnerId.new`. -/
theorem ownerId_new_ok (v : List Char) (o : OwnerId) :
    OwnerId.new v = Except.ok o ↔ (o = ⟨v⟩ ∧ 0 < rustLen v) := by
  unfold OwnerId.new
  split
  next hc => simp [eq_comm, hc]
  next hc => simp [hc]

/-- Failure characterisation of `OwnerId.new`. -/
theorem ownerId_new_error (v : List Char) (e : ValidationError) :
    OwnerId.new v = Except.error e ↔
      (e = ValidationError.new "Must be greater than 0".data ∧ ¬0 < rustLen v) := by
  unfold OwnerId.new
  split
  next hc => simp [hc]
  next hc => simp [eq_comm, hc]

/-- Success of `OwnerId.new` as a boolean, in terms of byte length. -/
theorem ownerId_new_isOk (v : List Char) :
    (OwnerId.new v).isOk = true ↔ 0 < rustLen v := by
  unfold OwnerId.new
  split
  next hc => simp [Except.isOk, Except.toBool, hc]
  next hc => simp [Except.isOk, Except.toBool, hc]

/-- Success of `ToDoId.new` as a boolean, in terms of byte length. -/
theorem toDoId_new_isOk (v : List Char) :
    (ToDoId.new v).isOk = true ↔ 0 < rustLen v := by
  unfold ToDoId.new
  split
  next hc => simp [Except.isOk, Except.toBool, hc]
  next hc => simp [Except.isOk, Except.toBool, hc]

/-- Four-way characterisation of `validate` on a fresh builder, by case on the
two field checks. -/
theorem validate_eq (u : UnvalidatedToDo) :
    (ValidateToDo.new u).validate =
      match Title.new u.title, OwnerId.new u.owner_id with
      | Except.ok t, Except.ok o =>
          some (Except.ok { title := t, is_complete := IsComplete.INCOMPLETE, owner_id := o })
      | Except.error e, Except.ok _ =>
          some (Except.error (ValidationError.new (" - ".data ++ e.display)))
      | Except.ok _, Except.error e =>
          some (Except.error (ValidationError.new (" - ".data ++ e.display)))
      | Except.error e1, Except.error e2 =>
          some (Except.error
            (ValidationError.new (" - ".data ++ e1.display ++ " - ".data ++ e2.display))) := by
  cases h1 : Title.new u.title <;> cases h2 : OwnerId.new u.owner_id <;>
    simp [ValidateToDo.validate, ValidateToDo.check_title, ValidateToDo.check_owner_id,
      ValidateToDo.new, aggregate, h1, h2]

/-- Success characterisation of `ToDoId.new`. -/
theorem toDoId_new_ok (v : List Char) (i : ToDoId) :
    ToDoId.new v = Except.ok i ↔ (i = ⟨v⟩ ∧ 0 < rustLen v) := by
  unfold ToDoId.new
  split
  next hc => simp [eq_comm, hc]
  next hc => simp [hc]

/-! Claims. -/

/-- Claim C1, counterexample: on an input whose is_complete flag is true,
validation succeeds but the returned completion state is INCOMPLETE, not
COMPLETE as the claim requires. -/
theorem C1_counterexample :
    (ValidateToDo.new
        { title := "my title".data, owner_id := "jameseastham".data,
          is_complete := true }).validate =
      some (Except.ok
        { title := ⟨"my title".data⟩, is_complete := IsComplete.INCOMPLETE,
          owner_id := ⟨"jameseastham".data⟩ }) ∧
    IsComplete.INCOMPLETE ≠ IsComplete.COMPLETE :=
  ⟨by rfl, by decide⟩

/-- Claim C1, amended: whenever validation succeeds, the returned
completion state is always INCOMPLETE, regardless of the value of the
is_complete flag on the input (the validator never reads that flag). -/
theorem C1_completion_always_incomplete (u : UnvalidatedToDo) (v : ValidatedToDo)
    (h : (ValidateToDo.new u).validate = some (Except.ok v)) :
    v.is_complete = IsComplete.INCOMPLETE := by
  rw [validate_eq] at h
  cases h1 : Title.new u.title <;> cases h2 : OwnerId.new u.owner_id <;>
      rw [h1, h2] at h <;> simp at h
  rw [← h]

/-- Witness for C1 at a concrete input. -/
theorem C1_witness :
    ValidatedToDo.is_complete
      { title := ⟨"my title".data⟩, is_complete := IsComplete.INCOMPLETE,
        owner_id := ⟨"jameseastham".data⟩ } = IsComplete.INCOMPLETE :=
  C1_completion_always_incomplete
    { title := "my title".data, owner_id := "jameseastham".data, is_complete := false }
    { title := ⟨"my title".data⟩, is_complete := IsComplete.INCOMPLETE,
      owner_id := ⟨"jameseastham".data⟩ }
    (by rfl)

/-- Claim C2, counterexample: with an empty title and a valid owner id there
is one violation whose individual message is "Must be between 0 and 50
chars", yet the aggregated message is not that text: it carries a leading
" - " delimiter and the rendered "Validation error: " prefix. -/
theorem C2_counterexample :
    (ValidateToDo.new
        { title := "".data, owner_id := "jameseastham".data,
          is_complete := false }).validate =
      some (Except.error
        (ValidationError.new
          " - Validation error: Must be between 0 and 50 chars".data)) ∧
    " - Validation error: Must be between 0 and 50 chars".data ≠
      "Must be between 0 and 50 chars".data :=
  ⟨by rfl, by decide⟩

/-- Claim C2, amended: on failure, validate returns a single ValidationError
whose message is, for each violated field in the fixed check order (title
before owner id), the delimiter " - " followed by the rendered form of that
violation ("Validation error: " followed by its message); so every segment,
including the first, is preceded by the delimiter. -/
theorem C2_aggregated_message (u : UnvalidatedToDo) (e : ValidationError)
    (h : (ValidateToDo.new u).validate = some (Except.error e)) :
    e.message =
      (match Title.new u.title with
       | Except.ok _ => ([] : List Char)
       | Except.error te => " - ".data ++ te.display) ++
      (match OwnerId.new u.owner_id with
       | Except.ok _ => ([] : List Char)
       | Except.error oe => " - ".data ++ oe.display) := by
  rw [validate_eq] at h
  cases h1 : Title.new u.title <;> cases h2 : OwnerId.new u.owner_id <;>
      rw [h1, h2] at h <;> simp at h <;> simp [← h, ValidationError.new]

/-- Witness for C2 at a concrete input. -/
theorem C2_witness :
    (ValidationError.new
        " - Validation error: Must be between 0 and 50 chars".data).message =
      (match Title.new "".data with
       | Except.ok _ => ([] : List Char)
       | Except.error te => " - ".data ++ te.display) ++
      (match OwnerId.new "jameseastham".data with
       | Except.ok _ => ([] : List Char)
       | Except.error oe => " - ".data ++ oe.display) :=
  C2_aggregated_message
    { title := "".data, owner_id := "jameseastham".data, is_complete := false }
    (ValidationError.new " - Validation error: Must be between 0 and 50 chars".data)
    (by rfl)

/-- Claim C3: when the currently persisted item is complete and the update
command does not revert it to incomplete, the persisted title and identity
are unchanged and only the completion flag is (re)applied. -/
theorem C3_completed_title_immutable (cur : PersistedItem) (cmd : UpdateCommand)
    (hc : cur.is_complete = true) (hs : cmd.set_as_complete = true) :
    (applyUpdate cur cmd).title = cur.title ∧
    (applyUpdate cur cmd).id = cur.id ∧
    (applyUpdate cur cmd).is_complete = cmd.set_as_complete := by
  simp [applyUpdate, hc, hs]

/-- Witness for C3 at a concrete persisted item and update command. -/
theorem C3_witness :
    (applyUpdate { id := "id-1".data, title := "T".data, is_complete := true }
        { title := "Changed".data, set_as_complete := true }).title =
      PersistedItem.title { id := "id-1".data, title := "T".data, is_complete := true } ∧
    (applyUpdate { id := "id-1".data, title := "T".data, is_complete := true }
        { title := "Changed".data, set_as_complete := true }).id =
      PersistedItem.id { id := "id-1".data, title := "T".data, is_complete := true } ∧
    (applyUpdate { id := "id-1".data, title := "T".data, is_complete := true }
        { title := "Changed".data, set_as_complete := true }).is_complete =
      UpdateCommand.set_as_complete { title := "Changed".data, set_as_complete := true } :=
  C3_completed_title_immutable
    { id := "id-1".data, title := "T".data, is_complete := true }
    { title := "Changed".data, set_as_complete := true }
    (by rfl) (by rfl)

/-- Claim C4: when both the title and the owner id are invalid, both checks
run and the aggregated message contains both violation texts, the title
violation text before the owner-id violation text. -/
theorem C4_no_short_circuit (u : UnvalidatedToDo)
    (ht : (Title.new u.title).isOk = false)
    (ho : (OwnerId.new u.owner_id).isOk = false) :
    ∃ e, (ValidateToDo.new u).validate = some (Except.error e) ∧
      ∃ a b c, e.message =
        a ++ "Must be between 0 and 50 chars".data ++
          b ++ "Must be greater than 0".data ++ c := by
  have h1 : Title.new u.title =
      Except.error (ValidationError.new "Must be between 0 and 50 chars".data) := by
    cases h : Title.new u.title with
    | ok t => rw [h] at ht; simp [Except.isOk, Except.toBool] at ht
    | error e =>
        obtain ⟨he, _⟩ := (title_new_error u.title e).mp h
        rw [he]
  have h2 : OwnerId.new u.owner_id =
      Except.error (ValidationError.new "Must be greater than 0".data) := by
    cases h : OwnerId.new u.owner_id with
    | ok o => rw [h] at ho; simp [Except.isOk, Except.toBool] at ho
    | error e =>
        obtain ⟨he, _⟩ := (ownerId_new_error u.owner_id e).mp h
        rw [he]
  refine ⟨_, by rw [validate_eq, h1, h2], ?_⟩
  exact ⟨" - Validation error: ".data, " - Validation error: ".data, [], by decide⟩

/-- Witness for C4 at a concrete input with both fields invalid. -/
theorem C4_witness :
    ∃ e, (ValidateToDo.new
        { title := [], owner_id := [], is_complete := false }).validate =
        some (Except.error e) ∧
      ∃ a b c, e.message =
        a ++ "Must be between 0 and 50 chars".data ++
          b ++ "Must be greater than 0".data ++ c :=
  C4_no_short_circuit
    { title := [], owner_id := [], is_complete := false } (by decide) (by decide)

/-- Claim C5, counterexample: a title of exactly 50 characters is not always
accepted; fifty two-byte characters make 100 UTF-8 bytes and are rejected,
because the Rust len counts bytes. -/
theorem C5_counterexample :
    (List.replicate 50 'é').length = 50 ∧
    Title.new (List.replicate 50 'é') =
      Except.error (ValidationError.new "Must be between 0 and 50 chars".data) :=
  ⟨by decide, by rfl⟩

/-- Claim C5, amended: Title.new succeeds exactly when the UTF-8 byte length
of the title is between 1 and 50 inclusive, and otherwise fails with the
ValidationError carrying the title-length message. -/
theorem C5_title_byte_length_bounds (v : List Char) :
    ((∃ t, Title.new v = Except.ok t) ↔ (1 ≤ rustLen v ∧ rustLen v ≤ 50)) ∧
    (¬(1 ≤ rustLen v ∧ rustLen v ≤ 50) →
      Title.new v = Except.error (ValidationError.new "Must be between 0 and 50 chars".data)) := by
  constructor
  · constructor
    · rintro ⟨t, htv⟩
      exact ((title_new_ok v t).mp htv).2
    · intro hlen
      exact ⟨⟨v⟩, (title_new_ok v ⟨v⟩).mpr ⟨rfl, hlen⟩⟩
  · intro hlen
    exact (title_new_error v _).mpr ⟨rfl, hlen⟩

/-- Witness for C5 at a concrete rejected input. -/
theorem C5_witness :
    Title.new ([] : List Char) =
      Except.error (ValidationError.new "Must be between 0 and 50 chars".data) :=
  (C5_title_byte_length_bounds []).2 (by decide)

/-- Claim C6: OwnerId.new succeeds on every non-empty string, with no upper
length limit, and fails on the empty string with a ValidationError. -/
theorem C6_owner_id_nonempty (v : List Char) :
    (v ≠ [] → OwnerId.new v = Except.ok ⟨v⟩) ∧
    (v = [] →
      OwnerId.new v = Except.error (ValidationError.new "Must be greater than 0".data)) := by
  constructor
  · intro h
    exact (ownerId_new_ok v ⟨v⟩).mpr ⟨rfl, rustLen_pos_of_ne_nil v h⟩
  · intro h
    subst h
    exact (ownerId_new_error [] _).mpr ⟨rfl, by decide⟩

/-- Witness for C6 at a concrete non-empty owner id. -/
theorem C6_witness :
    OwnerId.new "alice".data = Except.ok ⟨"alice".data⟩ :=
  (C6_owner_id_nonempty "alice".data).1 (by decide)

/-- Claim C7: validate succeeds exactly when both the title check and the
owner-id check succeed, and any ValidatedToDo it produces satisfies the
construction invariants of its title and owner id. -/
theorem C7_all_or_nothing (u : UnvalidatedToDo) :
    ((∃ v, (ValidateToDo.new u).validate = some (Except.ok v)) ↔
      ((Title.new u.title).isOk = true ∧ (OwnerId.new u.owner_id).isOk = true)) ∧
    (∀ v, (ValidateToDo.new u).validate = some (Except.ok v) →
      (0 < rustLen v.title.value ∧ rustLen v.title.value ≤ 50) ∧
        0 < rustLen v.owner_id.value) := by
  have hv := validate_eq u
  cases h1 : Title.new u.title <;> cases h2 : OwnerId.new u.owner_id <;> rw [h1, h2] at hv
  case ok.ok t o =>
    obtain ⟨htv, hb⟩ := (title_new_ok u.title t).mp h1
    obtain ⟨hov, hp⟩ := (ownerId_new_ok u.owner_id o).mp h2
    subst htv
    subst hov
    constructor
    · simp [hv, h1, h2, Except.isOk, Except.toBool]
    · intro v hvv
      rw [hv] at hvv
      simp at hvv
      rw [← hvv]
      exact ⟨hb, hp⟩
  all_goals constructor
  all_goals simp [hv, h1, h2, Except.isOk, Except.toBool]

/-- Witness for C7 at a concrete valid input. -/
theorem C7_witness :
    (0 < rustLen (Title.mk "my title".data).value ∧
      rustLen (Title.mk "my title".data).value ≤ 50) ∧
    0 < rustLen (OwnerId.mk "jameseastham".data).value :=
  (C7_all_or_nothing
      { title := "my title".data, owner_id := "jameseastham".data,
        is_complete := false }).2
    { title := ⟨"my title".data⟩, is_complete := IsComplete.INCOMPLETE,
      owner_id := ⟨"jameseastham".data⟩ }
    (by rfl)

/-- Claim C8: for every input with an empty title, validate fails with a
ValidationError whose message contains the text "Must be between 0 and 50
chars". -/
theorem C8_empty_title_error (u : UnvalidatedToDo) (h : u.title = []) :
    ∃ e, (ValidateToDo.new u).validate = some (Except.error e) ∧
      ∃ a b, e.message = a ++ "Must be between 0 and 50 chars".data ++ b := by
  have h1 : Title.new u.title =
      Except.error (ValidationError.new "Must be between 0 and 50 chars".data) := by
    rw [h]
    exact (title_new_error [] _).mpr ⟨rfl, by decide⟩
  have hv := validate_eq u
  rw [h1] at hv
  cases h2 : OwnerId.new u.owner_id with
  | ok o =>
      rw [h2] at hv
      exact ⟨_, hv, " - Validation error: ".data, [], by decide⟩
  | error e2 =>
      rw [h2] at hv
      obtain ⟨he2, _⟩ := (ownerId_new_error u.owner_id e2).mp h2
      subst he2
      exact ⟨_, hv, " - Validation error: ".data,
        " - Validation error: Must be greater than 0".data, by decide⟩

/-- Witness for C8 at a concrete empty-title input. -/
theorem C8_witness :
    ∃ e, (ValidateToDo.new
        { title := [], owner_id := "alice".data, is_complete := false }).validate =
        some (Except.error e) ∧
      ∃ a b, e.message = a ++ "Must be between 0 and 50 chars".data ++ b :=
  C8_empty_title_error
    { title := [], owner_id := "alice".data, is_complete := false } rfl

/-- Claim C9: the two unwrap calls inside validate never panic: validate is
total (never the panic value), and whenever the error list is empty after
both checks have run, the title and owner-id options are both populated. -/
theorem C9_unwrap_safe (u : UnvalidatedToDo) :
    ((ValidateToDo.new u).validate ≠ none) ∧
    (((ValidateToDo.new u).check_title.check_owner_id).errors = [] →
      ((ValidateToDo.new u).check_title.check_owner_id).title.isSome = true ∧
      ((ValidateToDo.new u).check_title.check_owner_id).owner_id.isSome = true) := by
  cases h1 : Title.new u.title <;> cases h2 : OwnerId.new u.owner_id <;>
    simp [ValidateToDo.check_title, ValidateToDo.check_owner_id, ValidateToDo.new,
      ValidateToDo.validate, h1, h2, aggregate]

/-- Witness for C9 at a concrete input with no violations. -/
theorem C9_witness :
    ((ValidateToDo.new
        { title := "my title".data, owner_id := "jameseastham".data,
          is_complete := false }).check_title.check_owner_id).title.isSome = true ∧
    ((ValidateToDo.new
        { title := "my title".data, owner_id := "jameseastham".data,
          is_complete := false }).check_title.check_owner_id).owner_id.isSome = true :=
  (C9_unwrap_safe
      { title := "my title".data, owner_id := "jameseastham".data,
        is_complete := false }).2 (by rfl)

/-- Claim C10: the three constructors measure length in UTF-8 bytes, their
accessors return exactly the constructed string, and a title whose character
count is at most 50 but whose byte length exceeds 50 is rejected. -/
theorem C10_lengths_in_utf8_bytes :
    (∀ v t, Title.new v = Except.ok t → t.get_value = v) ∧
    (∀ v o, OwnerId.new v = Except.ok o → o.get_value = v) ∧
    (∀ v i, ToDoId.new v = Except.ok i → i.get_value = v) ∧
    (∀ v, (Title.new v).isOk = true ↔ (0 < rustLen v ∧ rustLen v ≤ 50)) ∧
    (∀ v, (OwnerId.new v).isOk = true ↔ 0 < rustLen v) ∧
    (∀ v, (ToDoId.new v).isOk = true ↔ 0 < rustLen v) ∧
    ((List.replicate 26 'é').length ≤ 50 ∧
      (Title.new (List.replicate 26 'é')).isOk = false) := by
  refine ⟨?_, ?_, ?_, title_new_isOk, ownerId_new_isOk, toDoId_new_isOk,
    by decide, by decide⟩
  · intro v t h
    obtain ⟨htv, _⟩ := (title_new_ok v t).mp h
    rw [htv]
    rfl
  · intro v o h
    obtain ⟨hov, _⟩ := (ownerId_new_ok v o).mp h
    rw [hov]
    rfl
  · intro v i h
    obtain ⟨hiv, _⟩ := (toDoId_new_ok v i).mp h
    rw [hiv]
    rfl

/-- Witness for C10 at concrete accepted inputs. -/
theorem C10_witness :
    Title.get_value ⟨"a".data⟩ = "a".data ∧
    OwnerId.get_value ⟨"b".data⟩ = "b".data ∧
    ToDoId.get_value ⟨"c".data⟩ = "c".data :=
  ⟨C10_lengths_in_utf8_bytes.1 "a".data ⟨"a".data⟩ (by rfl),
   C10_lengths_in_utf8_bytes.2.1 "b".data ⟨"b".data⟩ (by rfl),
   C10_lengths_in_utf8_bytes.2.2.1 "c".data ⟨"c".data⟩ (by rfl)⟩

end ToDoDomain
